import Mathlib

/-!
Shallow embedding of the recipe scaling and formatting core of
`resin-calculator.py` (rsmith-nl/resin-calculator).

Python floats are modelled as exact rationals (`ℚ`); every concrete value
appearing in the verified scenarios is exactly representable, and fixed-point
formatting uses round-half-to-even, matching Python's `format` on those
values.  Python's dynamically typed tuple fields (a string in the
`quantity > 0` branch of `do_update`, the integer `0` otherwise) are modelled
by `PyVal`; Python exceptions by `Except PyError`.

Because the library's rational `+`, `*`, `-`, `/` are irreducible, the
embedding computes them on numerator/denominator pairs (`qadd`, `qmul`,
`qsub`, `qdiv`, `qsum`); the lemmas `qadd_eq`, `qmul_eq`, `qsub_eq`,
`qdiv_eq`, `qsum_eq` prove that these agree with the library operations, so
theorem statements use ordinary arithmetic notation.
-/

/-- Exact rational division computed on numerator/denominator pairs
(`qdiv_eq` proves it equal to `a / b`). -/
def qdiv (a b : ℚ) : ℚ :=
  Rat.divInt (a.num * (b.den : ℤ)) ((a.den : ℤ) * b.num)

/-- Exact rational multiplication computed on numerator/denominator pairs
(`qmul_eq` proves it equal to `a * b`). -/
def qmul (a b : ℚ) : ℚ :=
  Rat.divInt (a.num * b.num) ((a.den : ℤ) * b.den)

/-- Exact rational addition computed on numerator/denominator pairs
(`qadd_eq` proves it equal to `a + b`). -/
def qadd (a b : ℚ) : ℚ :=
  Rat.divInt (a.num * b.den + b.num * a.den) ((a.den : ℤ) * b.den)

/-- Exact rational subtraction computed on numerator/denominator pairs
(`qsub_eq` proves it equal to `a - b`). -/
def qsub (a b : ℚ) : ℚ :=
  Rat.divInt (a.num * b.den - b.num * a.den) ((a.den : ℤ) * b.den)

/-- Python `sum()` over a list of rationals: a left fold of addition
starting from `0` (`qsum_eq` proves it equal to `List.sum`). -/
def qsum (l : List ℚ) : ℚ :=
  l.foldl qadd 0

/-- A dynamically typed Python value as it occurs in the recipe rows:
either a string or an integer. -/
inductive PyVal where
  | str (s : String)
  | int (n : ℤ)
deriving DecidableEq, Repr

/-- The Python exceptions reachable in the modelled code, plus the
`noRecipeSelected` signal that the specification postulates (the code never
raises it; it is included so that statements about it can be expressed). -/
inductive PyError where
  | zeroDivisionError
  | typeError
  | valueError
  | indexError
  | noRecipeSelected
deriving DecidableEq, Repr

/-- One row of `self.current_recipe`: `(name, amount, per-kilogram)`.
The name is always a string; the other two fields are `PyVal`. -/
abbrev Row := String × PyVal × PyVal

/-- The scaling mode selected by the `quantitytype` combobox
(`self.quantity` in the source: index `0` is total quantity,
index `1` is first-component quantity). -/
inductive Mode where
  | total
  | firstComponent
deriving DecidableEq, Repr

/-- Python division: raises `ZeroDivisionError` on a zero denominator
(for both integer and float operands), otherwise exact division. -/
def pydiv (a b : ℚ) : Except PyError ℚ :=
  if b = 0 then .error .zeroDivisionError else .ok (qdiv a b)

/-- Python `int()` applied to a float: truncation toward zero. -/
def pyInt (q : ℚ) : ℤ :=
  q.num / (q.den : ℤ)

/-- Floor of a rational as an integer, via floor division of
numerator by denominator. -/
def qfloor (q : ℚ) : ℤ :=
  q.num.fdiv (q.den : ℤ)

/-- Round a rational to the nearest integer, ties to the even integer;
this is the rounding performed by Python's fixed-point `format` on the
(here exactly represented) value. -/
def roundHalfEven (q : ℚ) : ℤ :=
  let f := qfloor q
  let r := qsub q ((f : ℤ) : ℚ)
  if r < mkRat 1 2 then f
  else if mkRat 1 2 < r then f + 1
  else if f % 2 = 0 then f else f + 1

/-- Python `'{:.{}f}'.format(val, prec)`: fixed-point rendering of `q` with
exactly `prec` digits after the decimal point (no point when `prec = 0`),
trailing zeros kept. -/
def formatFixed (q : ℚ) (prec : ℕ) : String :=
  let n := roundHalfEven (qmul q ((10 ^ prec : ℕ) : ℚ))
  let sign := if n < 0 then "-" else ""
  let digits := toString n.natAbs
  if prec = 0 then sign ++ digits
  else
    let digits :=
      if digits.length < prec + 1 then
        String.mk (List.replicate (prec + 1 - digits.length) '0') ++ digits
      else digits
    sign ++ digits.take (digits.length - prec) ++ "." ++ digits.takeRight prec

/-- `pround` from the source (lines 28-35): precision starts at `1`, is set
to `0` when `val >= 100`, then to `3` when `val < 1`, and the value is
rendered with that many decimals. -/
def pround (val : ℚ) : String :=
  let precision : ℕ := 1
  let precision := if val ≥ 100 then 0 else precision
  let precision := if val < 1 then 3 else precision
  formatFixed val precision

/-- Python `len()` on a row field: the length of a string; raises
`TypeError` on an integer. -/
def pyLen (v : PyVal) : Except PyError ℕ :=
  match v with
  | .str s => .ok s.length
  | .int _ => .error .typeError

/-- How Python's `format` renders a row field as text. -/
def pyShow (v : PyVal) : String :=
  match v with
  | .str s => s
  | .int n => toString n

/-- Python `max()` over a sequence of naturals: raises `ValueError` on an
empty sequence. -/
def pyMaxNat (l : List ℕ) : Except PyError ℕ :=
  match l with
  | [] => .error .valueError
  | x :: xs => .ok (xs.foldl max x)

/-- Python `'{:>{}}'.format(s, w)`: right-align `s` in a field of width `w`
(no truncation when `s` is longer). -/
def padLeft (s : String) (w : ℕ) : String :=
  String.mk (List.replicate (w - s.length) ' ') ++ s

/-- Python `'{:{}s}'.format(s, w)`: left-align `s` in a field of width `w`. -/
def padRight (s : String) (w : ℕ) : String :=
  s ++ String.mk (List.replicate (w - s.length) ' ')

/-- `__version__` in the source. -/
def version : String := "0.16.0"

/-- The per-component computation in the `quantity > 0` branch of
`do_update` (lines 197-200): amount `pround(c * factor)` and per-kilogram
`'{:.2f}'.format(int(100000 / (c * factor)) / 100)` (the final division by
the integer `100` is exact, hence `Rat.divInt`). -/
def scaleComponent (factor : ℚ) (nc : String × ℚ) : Except PyError Row :=
  match nc with
  | (name, c) => do
      let t ← pydiv 100000 (qmul c factor)
      pure (name, .str (pround (qmul c factor)),
            .str (formatFixed (Rat.divInt (pyInt t) 100) 2))

/-- `do_update` (lines 184-204), from the point where the component list is
known.  The factor is computed first — total mode divides by the sum of all
parts, first-component mode by the first component's parts (`IndexError` on
an empty list) — and only then is `quantity > 0` tested: positive quantity
scales every component, otherwise every row is `(name, 0, 0)` with integer
zeros. -/
def do_update (components : List (String × ℚ)) (mode : Mode) (quantity : ℚ) :
    Except PyError (List Row) := do
  let factor ←
    match mode with
    | .total => pydiv quantity (qsum (components.map Prod.snd))
    | .firstComponent =>
        match components with
        | [] => .error .indexError
        | (_, c0) :: _ => pydiv quantity c0
  if 0 < quantity then
    components.mapM (scaleComponent factor)
  else
    pure (components.map (fun p => (p.1, PyVal.int 0, PyVal.int 0)))

/-- The unrounded scaled amounts `c * factor` of total mode (line 197 with
the factor of line 191): each component's parts times
`quantity / sum(parts)`. -/
def rawAmounts (components : List (String × ℚ)) (quantity : ℚ) : List ℚ :=
  components.map (fun p => p.2 * (quantity / (components.map Prod.snd).sum))

/-- The list of report lines built by `make_text` (lines 206-226).  `cur` is
`self.current_recipe`, `q` the quantity read back from the entry field,
`now` the ambient `str(datetime.now())[:-7]` and `uname` the ambient user
name; both ambient values are made explicit inputs here.  Column widths are
maxima of `len` over the rows (`ValueError` on an empty recipe, `TypeError`
on an integer field). -/
def make_text_lines (cur : List Row) (current_name : String) (q : ℚ)
    (now uname : String) : Except PyError (List String) := do
  let namelen ← pyMaxNat (cur.map (fun r => r.1.length))
  let amLens ← cur.mapM (fun r => pyLen r.2.1)
  let amlen0 ← pyMaxNat amLens
  let amlen := max amlen0 (pround q).length
  let apuLens ← cur.mapM (fun r => pyLen r.2.2)
  let apulen ← pyMaxNat apuLens
  let header := ["Resin calculator v" ++ version,
                 "------------------------", "",
                 "Recipe for: " ++ current_name,
                 "Date: " ++ now,
                 "User: " ++ uname, ""]
  let rows := cur.map (fun r =>
    padRight r.1 namelen ++ ": " ++ padLeft (pyShow r.2.1) amlen ++ " g (" ++
      padLeft (pyShow r.2.2) apulen ++ " /kg)")
  let tailLines := [String.mk (List.replicate (namelen + 4 + amlen) '-'),
    padRight "" (namelen + 2) ++ padLeft (pround q) amlen ++ " g"]
  pure (header ++ rows ++ tailLines)

/-- `make_text`: the report text, the lines joined by newlines. -/
def make_text (cur : List Row) (current_name : String) (q : ℚ)
    (now uname : String) : Except PyError String :=
  (make_text_lines cur current_name q now uname).map (String.intercalate "\n")

/-- `do_print` (lines 228-236), up to the produced text: a `None` current
recipe returns silently with no output; otherwise the text of `make_text`
is produced (the file write and print spooling are I/O outside the core). -/
def do_print (cur : Option (List Row)) (current_name : String) (q : ℚ)
    (now uname : String) : Except PyError (Option String) :=
  match cur with
  | none => .ok none
  | some rows => (make_text rows current_name q now uname).map some

/-- Number of digits rendered after the decimal point of a fixed-point
string (`0` when there is no point). -/
def decCount (s : String) : ℕ :=
  match s.data.dropWhile (fun ch => ch != '.') with
  | [] => 0
  | _ :: ds => ds.length

/-! ## Agreement of the computable rational operations with the library's -/

theorem qmul_eq (a b : ℚ) : qmul a b = a * b := by
  rw [qmul, Rat.divInt_eq_div]
  push_cast
  conv_rhs => rw [← Rat.num_div_den a, ← Rat.num_div_den b]
  rw [div_mul_div_comm]

theorem qdiv_eq (a b : ℚ) : qdiv a b = a / b := by
  rcases eq_or_ne b 0 with rfl | hb
  · simp [qdiv]
  · have hy : ((a.den : ℚ)) ≠ 0 := by exact_mod_cast a.den_pos.ne'
    have hw : ((b.den : ℚ)) ≠ 0 := by exact_mod_cast b.den_pos.ne'
    have hz : ((b.num : ℚ)) ≠ 0 := by exact_mod_cast Rat.num_ne_zero.mpr hb
    rw [qdiv, Rat.divInt_eq_div]
    push_cast
    rw [div_eq_div_iff (mul_ne_zero hy hz) hb]
    have ha' : (a.num : ℚ) = a * a.den := (div_eq_iff hy).mp (Rat.num_div_den a)
    have hb' : (b.num : ℚ) = b * b.den := (div_eq_iff hw).mp (Rat.num_div_den b)
    rw [ha', hb']; ring

theorem qadd_eq (a b : ℚ) : qadd a b = a + b := by
  have hy : ((a.den : ℚ)) ≠ 0 := by exact_mod_cast a.den_pos.ne'
  have hw : ((b.den : ℚ)) ≠ 0 := by exact_mod_cast b.den_pos.ne'
  rw [qadd, Rat.divInt_eq_div]
  push_cast
  conv_rhs => rw [← Rat.num_div_den a, ← Rat.num_div_den b, div_add_div _ _ hy hw]
  ring_nf

theorem qsub_eq (a b : ℚ) : qsub a b = a - b := by
  have hy : ((a.den : ℚ)) ≠ 0 := by exact_mod_cast a.den_pos.ne'
  have hw : ((b.den : ℚ)) ≠ 0 := by exact_mod_cast b.den_pos.ne'
  rw [qsub, Rat.divInt_eq_div]
  push_cast
  conv_rhs => rw [← Rat.num_div_den a, ← Rat.num_div_den b, div_sub_div _ _ hy hw]
  ring_nf

theorem qsum_eq (l : List ℚ) : qsum l = l.sum := by
  suffices h : ∀ acc : ℚ, l.foldl qadd acc = acc + l.sum by
    simpa using h 0
  induction l with
  | nil => intro acc; simp
  | cons x xs ih => intro acc; simp [List.foldl_cons, qadd_eq, ih, add_assoc]

deriving instance DecidableEq for Except

/-! ## Helper lemmas -/

theorem except_error_bind {ε α β : Type} (e : ε) (f : α → Except ε β) :
    (Except.error e >>= f) = (Except.error e : Except ε β) := rfl

theorem except_ok_bind {ε α β : Type} (a : α) (f : α → Except ε β) :
    (Except.ok a >>= f) = f a := rfl

theorem exceptBind_ok {ε α β : Type} {x : Except ε α} {f : α → Except ε β} {b : β}
    (h : x >>= f = .ok b) : ∃ a, x = .ok a ∧ f a = .ok b := by
  cases x with
  | error e => simp [Bind.bind, Except.bind] at h
  | ok a => exact ⟨a, rfl, by simpa [Bind.bind, Except.bind] using h⟩

theorem do_update_nonpos_total (components : List (String × ℚ)) (q : ℚ)
    (hq : q ≤ 0) (hS : (components.map Prod.snd).sum ≠ 0) :
    do_update components .total q =
      .ok (components.map (fun p => (p.1, PyVal.int 0, PyVal.int 0))) := by
  simp [do_update, pydiv, qsum_eq, hS, not_lt.mpr hq]

/-! ## Claims -/

/-- C3 (amended): `pround` chooses 0 decimals for `x ≥ 100`, 3 decimals for
`x < 1` and 1 decimal otherwise; `pround 100 = "100"`,
`pround 99.99 = "100.0"`, `pround 0.999 = "0.999"`, `pround 1.0 = "1.0"`;
but `pround 99.95` renders with ONE decimal (`"100.0"`), not zero, since
`99.95 < 100` falls in the 1-decimal bucket. -/
theorem c3_rounding_buckets :
    (∀ q : ℚ, pround q =
      formatFixed q (if 100 ≤ q then 0 else if q < 1 then 3 else 1)) ∧
    pround 100 = "100" ∧
    (mkRat 9999 100 = (9999 : ℚ) / 100 ∧ pround (mkRat 9999 100) = "100.0") ∧
    (mkRat 999 1000 = (999 : ℚ) / 1000 ∧ pround (mkRat 999 1000) = "0.999") ∧
    pround 1 = "1.0" ∧
    (mkRat 1999 20 = (1999 : ℚ) / 20 ∧ pround (mkRat 1999 20) = "100.0" ∧
      decCount (pround (mkRat 1999 20)) = 1) := by
  refine ⟨?_, by decide, ⟨by norm_num [Rat.mkRat_eq_div], by decide⟩,
    ⟨by norm_num [Rat.mkRat_eq_div], by decide⟩, by decide,
    by norm_num [Rat.mkRat_eq_div], by decide, by decide⟩
  intro q
  rcases lt_or_le q 1 with h1 | h1
  · have h2 : ¬ (100 : ℚ) ≤ q := by linarith
    simp [pround, h1, h2, ge_iff_le]
  · have h1' : ¬ q < 1 := not_lt.mpr h1
    by_cases h2 : (100 : ℚ) ≤ q
    · simp [pround, h1', h2, ge_iff_le]
    · simp [pround, h1', h2, ge_iff_le]

/-- C3 counterexample: the claim says `pround 99.95` renders with 0 decimal
places; in fact it renders `"100.0"`, which has one digit after the decimal
point. -/
theorem c3_counterexample :
    mkRat 1999 20 = (1999 : ℚ) / 20 ∧ pround (mkRat 1999 20) = "100.0" ∧
      decCount (pround (mkRat 1999 20)) ≠ 0 :=
  ⟨by norm_num [Rat.mkRat_eq_div], by decide, by decide⟩

/-- C4 (amended): for `quantity ≤ 0` the result rows are all
`(name, 0, 0)` with no division error — but only when the scaling
denominator is nonzero, because `do_update` computes the factor before
testing the quantity. -/
theorem c4_zero_quantity (components : List (String × ℚ)) (q : ℚ) (hq : q ≤ 0) :
    ((components.map Prod.snd).sum ≠ 0 →
      do_update components .total q =
        .ok (components.map (fun p => (p.1, PyVal.int 0, PyVal.int 0)))) ∧
    (∀ (n : String) (c0 : ℚ) (rest : List (String × ℚ)), c0 ≠ 0 →
      do_update ((n, c0) :: rest) .firstComponent q =
        .ok (((n, c0) :: rest).map (fun p => (p.1, PyVal.int 0, PyVal.int 0)))) := by
  constructor
  · intro hS
    exact do_update_nonpos_total components q hq hS
  · intro n c0 rest hc
    simp [do_update, pydiv, hc, not_lt.mpr hq]

/-- C4 witness: a concrete instantiation of `c4_zero_quantity`. -/
theorem c4_witness :
    do_update [("resin", 2), ("hardener", 1)] .total 0 =
      .ok [("resin", PyVal.int 0, PyVal.int 0), ("hardener", PyVal.int 0, PyVal.int 0)] :=
  (c4_zero_quantity [("resin", 2), ("hardener", 1)] 0 (by norm_num)).1 (by norm_num)

/-- C4 counterexample: the claim includes degenerate zero-sum recipes, but a
recipe whose parts sum to zero raises `ZeroDivisionError` even at
`quantity = 0`, because the factor is computed before the quantity test. -/
theorem c4_counterexample :
    do_update [("a", 0)] .total 0 = .error .zeroDivisionError := by decide

/-- C5: with `quantity > 0`, a zero scaling denominator (zero sum of parts
in total mode, or a zero first-component part in first-component mode)
makes `do_update` fail with `ZeroDivisionError`, returned to the caller. -/
theorem c5_div_by_zero (components : List (String × ℚ)) (q : ℚ) (_hq : 0 < q) :
    ((components.map Prod.snd).sum = 0 →
      do_update components .total q = .error .zeroDivisionError) ∧
    (∀ (n : String) (rest : List (String × ℚ)),
      do_update ((n, (0 : ℚ)) :: rest) .firstComponent q = .error .zeroDivisionError) := by
  constructor
  · intro hS
    simp [do_update, pydiv, qsum_eq, hS, except_error_bind]
  · intro n rest
    simp [do_update, pydiv, except_error_bind]

/-- C5 witness: a concrete instantiation of `c5_div_by_zero`. -/
theorem c5_witness :
    do_update [("a", 2), ("b", -2)] .total 100 = .error .zeroDivisionError :=
  (c5_div_by_zero [("a", 2), ("b", -2)] 100 (by norm_num)).1 (by norm_num)

/-- C6 (amended): in the `quantity > 0` branch, a component with strictly
positive raw amount `c * factor` yields amount `pround (c * factor)` and
per-kilogram `'{:.2f}'` of `int(100000 / (c * factor)) / 100`; a component
with ZERO raw amount raises `ZeroDivisionError` instead of yielding `0`
(the `0` fields arise only in the `quantity ≤ 0` branch). -/
theorem c6_per_kilogram (factor : ℚ) (name : String) (c : ℚ) :
    (0 < c * factor →
      scaleComponent factor (name, c) =
        .ok (name, .str (pround (c * factor)),
             .str (formatFixed ((pyInt ((100000 : ℚ) / (c * factor)) : ℚ) / 100) 2))) ∧
    (c * factor = 0 →
      scaleComponent factor (name, c) = .error .zeroDivisionError) := by
  constructor
  · intro h
    simp [scaleComponent, pydiv, qmul_eq, qdiv_eq, Rat.divInt_eq_div, ne_of_gt h]
  · intro h
    simp [scaleComponent, pydiv, qmul_eq, h]

/-- C6 witness: a concrete instantiation of `c6_per_kilogram`. -/
theorem c6_witness :
    scaleComponent 50 ("resin", 2) =
      .ok ("resin", .str (pround ((2 : ℚ) * 50)),
           .str (formatFixed ((pyInt ((100000 : ℚ) / ((2 : ℚ) * 50)) : ℚ) / 100) 2)) :=
  (c6_per_kilogram 50 "resin" 2).1 (by norm_num)

/-- C6 counterexample: the claim says a component with non-positive raw
amount gets `per_kilogram = 0`; in fact, with `quantity > 0`, a zero-part
component makes the whole update raise `ZeroDivisionError`. -/
theorem c6_counterexample :
    do_update [("a", 1), ("b", 0)] .total 100 = .error .zeroDivisionError := by decide

/-- C7: in total mode with all parts positive and `quantity > 0`, the
unrounded amounts are `parts * (quantity / sum(parts))` — proportional to
the parts — their exact sum is `quantity`, and `do_update` scales every
component with exactly that factor. -/
theorem c7_proportionality (components : List (String × ℚ)) (q : ℚ)
    (hpos : ∀ p ∈ components, 0 < Prod.snd p) (hne : components ≠ []) (hq : 0 < q) :
    rawAmounts components q =
      components.map (fun p => p.2 * (q / (components.map Prod.snd).sum)) ∧
    (rawAmounts components q).sum = q ∧
    do_update components .total q =
      components.mapM (scaleComponent (q / (components.map Prod.snd).sum)) := by
  have hS : 0 < (components.map Prod.snd).sum := by
    apply List.sum_pos
    · intro x hx
      obtain ⟨p, hp, rfl⟩ := List.mem_map.mp hx
      exact hpos p hp
    · simpa using hne
  refine ⟨rfl, ?_, ?_⟩
  · rw [rawAmounts, List.sum_map_mul_right]
    rw [mul_comm, div_mul_cancel₀ _ (ne_of_gt hS)]
  · simp [do_update, pydiv, qsum_eq, qdiv_eq, ne_of_gt hS, hq, except_ok_bind]

/-- C7 witness: a concrete instantiation of `c7_proportionality`. -/
theorem c7_witness :
    (rawAmounts [("resin", 2), ("hardener", 1)] 150).sum = 150 :=
  (c7_proportionality [("resin", 2), ("hardener", 1)] 150
    (by intro p hp; simp at hp; rcases hp with rfl | rfl <;> norm_num)
    (by simp) (by norm_num)).2.1

/-- C8: in first-component mode the factor is `quantity` divided by the
first component's parts; for `[("A",10),("B",20),("C",70)]` at quantity 50
the factor is 5 and the rendered rows are A `"50.0"`, B `"100"`,
C `"350"`. -/
theorem c8_first_component_mode :
    (∀ (n : String) (c0 : ℚ) (rest : List (String × ℚ)) (q : ℚ), c0 ≠ 0 → 0 < q →
      do_update ((n, c0) :: rest) .firstComponent q =
        ((n, c0) :: rest).mapM (scaleComponent (q / c0))) ∧
    do_update [("A", 10), ("B", 20), ("C", 70)] .firstComponent 50 =
      .ok [("A", .str "50.0", .str "20.00"), ("B", .str "100", .str "10.00"),
           ("C", .str "350", .str "2.85")] := by
  constructor
  · intro n c0 rest q hc hq
    simp [do_update, pydiv, qdiv_eq, hc, hq, except_ok_bind]
  · decide

/-- C8 witness: a concrete instantiation of `c8_first_component_mode`. -/
theorem c8_witness :
    do_update [("A", (10 : ℚ))] .firstComponent 50 =
      [("A", (10 : ℚ))].mapM (scaleComponent ((50 : ℚ) / 10)) :=
  c8_first_component_mode.1 "A" 10 [] 50 (by norm_num) (by norm_num)

/-- C1 (amended): the total on the report's last line is `pround q` — the
requested quantity rounded by magnitude, NOT the sum of the rounded
per-component amounts; in the P6 scenario (`[("resin",2),("hardener",1)]`,
quantity 150, total mode) the rendering is `"100"` and `"50.0"` and the
rendered total `"150"` happens to equal their sum `100 + 50.0 = 150.0`. -/
theorem c1_total_line (cur : List Row) (nm : String) (q : ℚ) (now uname : String)
    (ls : List String) (h : make_text_lines cur nm q now uname = .ok ls) :
    (∃ w1 w2, ls.getLast? = some (padRight "" w1 ++ padLeft (pround q) w2 ++ " g")) ∧
    do_update [("resin", 2), ("hardener", 1)] .total 150 =
      .ok [("resin", .str "100", .str "10.00"), ("hardener", .str "50.0", .str "20.00")] ∧
    pround 150 = "150" ∧ ((100 : ℚ) + 50 = 150) := by
  refine ⟨?_, by decide, by decide, by norm_num⟩
  rw [make_text_lines] at h
  obtain ⟨namelen, h1, h⟩ := exceptBind_ok h
  obtain ⟨amLens, h2, h⟩ := exceptBind_ok h
  obtain ⟨amlen0, h3, h⟩ := exceptBind_ok h
  obtain ⟨apuLens, h4, h⟩ := exceptBind_ok h
  obtain ⟨apulen, h5, h⟩ := exceptBind_ok h
  simp only [pure, Except.pure] at h
  cases h
  refine ⟨namelen + 2, max amlen0 (pround q).length, ?_⟩
  rw [List.getLast?_append]
  rfl

/-- C1 witness: a concrete instantiation of `c1_total_line`. -/
theorem c1_witness :
    ∃ w1 w2,
      (["Resin calculator v0.16.0", "------------------------", "", "Recipe for: R",
        "Date: D", "User: U", "", "a: 33.3 g (30.00 /kg)", "b: 33.3 g (30.00 /kg)",
        "c: 33.3 g (30.00 /kg)", "---------",
        "    100 g"] : List String).getLast? =
        some (padRight "" w1 ++ padLeft (pround (100 : ℚ)) w2 ++ " g") :=
  (c1_total_line [("a", .str "33.3", .str "30.00"), ("b", .str "33.3", .str "30.00"),
    ("c", .str "33.3", .str "30.00")] "R" 100 "D" "U"
    ["Resin calculator v0.16.0", "------------------------", "", "Recipe for: R",
     "Date: D", "User: U", "", "a: 33.3 g (30.00 /kg)", "b: 33.3 g (30.00 /kg)",
     "c: 33.3 g (30.00 /kg)", "---------", "    100 g"] (by decide)).1

/-- C1 counterexample: for three equal parts at quantity 100 every rounded
amount renders `"33.3"`, whose sum is `99.9`, yet the last report line shows
`"100"` (that is, `pround` of the quantity): the rendered total is not the
sum of the rounded amounts. -/
theorem c1_counterexample :
    do_update [("a", 1), ("b", 1), ("c", 1)] .total 100 =
      .ok [("a", .str "33.3", .str "30.00"), ("b", .str "33.3", .str "30.00"),
           ("c", .str "33.3", .str "30.00")] ∧
    make_text_lines [("a", .str "33.3", .str "30.00"), ("b", .str "33.3", .str "30.00"),
        ("c", .str "33.3", .str "30.00")] "R" 100 "D" "U" =
      .ok ["Resin calculator v0.16.0", "------------------------", "", "Recipe for: R",
           "Date: D", "User: U", "", "a: 33.3 g (30.00 /kg)", "b: 33.3 g (30.00 /kg)",
           "c: 33.3 g (30.00 /kg)", "---------", "    100 g"] ∧
    mkRat 333 10 = (333 : ℚ) / 10 ∧
    ((333 : ℚ) / 10 + 333 / 10 + 333 / 10 = 999 / 10) ∧ ((999 : ℚ) / 10 ≠ 100) := by
  refine ⟨by decide, by decide, by norm_num [Rat.mkRat_eq_div], by norm_num, by norm_num⟩

/-- C2 (amended): the report text is a pure function of the recipe rows,
name and quantity TOGETHER WITH the ambient timestamp and user name — equal
arguments and equal ambient state give byte-identical output — but it does
depend on that ambient state: changing only the clock reading, or only the
environment's user name, changes the produced string. -/
theorem c2_report_determinism :
    (∀ (cur cur' : List Row) (nm nm' : String) (q q' : ℚ) (now now' uname uname' : String),
      cur = cur' → nm = nm' → q = q' → now = now' → uname = uname' →
      make_text cur nm q now uname = make_text cur' nm' q' now' uname') ∧
    make_text [("resin", .str "100", .str "10.00"), ("hardener", .str "50.0", .str "20.00")]
        "Epoxy" 150 "2017-09-23 10:00:00" "joe" ≠
      make_text [("resin", .str "100", .str "10.00"), ("hardener", .str "50.0", .str "20.00")]
        "Epoxy" 150 "2017-09-24 10:00:00" "joe" ∧
    make_text [("resin", .str "100", .str "10.00"), ("hardener", .str "50.0", .str "20.00")]
        "Epoxy" 150 "2017-09-23 10:00:00" "joe" ≠
      make_text [("resin", .str "100", .str "10.00"), ("hardener", .str "50.0", .str "20.00")]
        "Epoxy" 150 "2017-09-23 10:00:00" "jane" := by
  refine ⟨?_, by decide, by decide⟩
  rintro cur _ nm _ q _ now _ uname _ rfl rfl rfl rfl rfl
  rfl

/-- C2 witness: a concrete instantiation of `c2_report_determinism`. -/
theorem c2_witness :
    make_text [("resin", .str "100", .str "10.00")] "Epoxy" 150 "D" "U" =
      make_text [("resin", .str "100", .str "10.00")] "Epoxy" 150 "D" "U" :=
  c2_report_determinism.1 [("resin", .str "100", .str "10.00")]
    [("resin", .str "100", .str "10.00")] "Epoxy" "Epoxy" 150 150 "D" "D" "U" "U"
    rfl rfl rfl rfl rfl

/-- C2 counterexample: two calls of `make_text` with identical arguments
(same rows, name and quantity) but clock readings one second apart produce
different strings — the output depends on ambient state beyond the
arguments. -/
theorem c2_counterexample :
    make_text [("resin", .str "100", .str "10.00"), ("hardener", .str "50.0", .str "20.00")]
        "Epoxy" 150 "2017-09-23 10:00:00" "joe" ≠
      make_text [("resin", .str "100", .str "10.00"), ("hardener", .str "50.0", .str "20.00")]
        "Epoxy" 150 "2017-09-23 10:00:01" "joe" := by decide

/-- C9 (amended): with no prior recipe (`None`) `do_print` silently returns
without output — it does not signal `NoRecipeSelected`; with an empty
component sequence the formatter raises `ValueError` (from `max()` over an
empty sequence), again not `NoRecipeSelected`. -/
theorem c9_no_recipe_signal (nm : String) (q : ℚ) (now uname : String) :
    do_print none nm q now uname = .ok none ∧
    do_print (some []) nm q now uname = .error .valueError ∧
    do_print none nm q now uname ≠ .error .noRecipeSelected := by
  refine ⟨rfl, rfl, by simp [do_print]⟩

/-- C9 counterexample: at a concrete input, report rendering with an absent
recipe succeeds silently (`.ok none`) and with an empty recipe fails with
`ValueError` — in neither case with the claimed `NoRecipeSelected`. -/
theorem c9_counterexample :
    do_print none "Epoxy" 100 "2017-09-23 10:00:00" "joe" = .ok none ∧
    do_print (some []) "Epoxy" 100 "2017-09-23 10:00:00" "joe" = .error .valueError ∧
    do_print none "Epoxy" 100 "2017-09-23 10:00:00" "joe" ≠ .error .noRecipeSelected := by
  decide

/-- C10: with `quantity ≤ 0` (and a nonzero parts sum so the factor does
not raise), every produced row carries the INTEGER `0` in the amount and
per-kilogram fields rather than strings, and `make_text` applied to such
rows fails with `TypeError` (from `len()` on an integer) instead of
producing a report. -/
theorem c10_zero_rows_not_strings (components : List (String × ℚ)) (q : ℚ)
    (nm now uname : String) (hq : q ≤ 0)
    (hS : (components.map Prod.snd).sum ≠ 0) (hne : components ≠ []) :
    do_update components .total q =
      .ok (components.map (fun p => (p.1, PyVal.int 0, PyVal.int 0))) ∧
    make_text (components.map (fun p => (p.1, PyVal.int 0, PyVal.int 0))) nm q now uname =
      .error .typeError := by
  refine ⟨do_update_nonpos_total components q hq hS, ?_⟩
  cases components with
  | nil => exact absurd rfl hne
  | cons c cs =>
    simp [make_text, make_text_lines, pyMaxNat, pyLen, List.mapM.loop,
      except_ok_bind, except_error_bind, Except.map]

/-- C10 witness: a concrete instantiation of `c10_zero_rows_not_strings`. -/
theorem c10_witness :
    do_update [("a", 1)] .total 0 = .ok [("a", PyVal.int 0, PyVal.int 0)] ∧
    make_text [("a", PyVal.int 0, PyVal.int 0)] "R" 0 "D" "U" = .error .typeError :=
  c10_zero_rows_not_strings [("a", 1)] 0 "R" "D" "U" (by norm_num) (by norm_num) (by simp)
